import Mathlib

/-!
Verification of the johari-app scoring-to-classification engine, coaching
advisory, evidence-gate indicator, plot coordinate mapper and resource
collection store, shallowly embedded from the TypeScript source
(the boundary-aware revision, which the spec designates as the reference
behavior, plus the legacy revision where a claim cites it).
-/

set_option autoImplicit false
set_option maxRecDepth 40000

namespace Johari

/-- The six rating criteria. -/
inductive Criterion where
  | Relevance | Alignment | Effectiveness | Impact | Sustainability | Coherence
  deriving DecidableEq, Repr

/-- The three axis-pair codes, from the PAIRS config. -/
inductive PairKey where
  | RAID | EFIM | SUCO
  deriving DecidableEq, Repr, Fintype

/-- The string form of a pair key, as interpolated into the lookup code. -/
def pairCode : PairKey → String
  | .RAID => "RAID"
  | .EFIM => "EFIM"
  | .SUCO => "SUCO"

/-- A quadrant catalog entry: name and description. -/
structure Quadrant where
  name : String
  desc : String
  deriving DecidableEq, Repr

/-- The Quadrant Catalog: per-(pair,code) labels and descriptions,
keyed by strings such as "RAID_HH", exactly as in the source. -/
def QUADRANTS : List (String × Quadrant) :=
  [ ("RAID_HH", { name := "Sweet Spot", desc := "Strategic choice: valuable locally and backed by curriculum/system." }),
    ("RAID_HL", { name := "Hidden Gems", desc := "Strong local fit but not fully aligned; adapt/map or advocate." }),
    ("RAID_LH", { name := "Box-Tickers", desc := "Easy to justify on paper; limited classroom value." }),
    ("RAID_LL", { name := "Misfits", desc := "Neither useful nor aligned; consider phase-out." }),
    ("EFIM_HH", { name := "Game-Changers", desc := "Deliver outcomes and reshape culture/outcomes more broadly." }),
    ("EFIM_HL", { name := "Efficient Tools", desc := "Hit targets well but limited wider change; niche yet valuable." }),
    ("EFIM_LH", { name := "Catalysts", desc := "Inconsistent outcomes but spark important long-term shifts." }),
    ("EFIM_LL", { name := "Ineffectual", desc := "Neither achieves goals nor creates wider value." }),
    ("SUCO_HH", { name := "Strategic Anchors", desc := "Long-lasting and well-integrated; backbone of strategy." }),
    ("SUCO_HL", { name := "Stubborn Survivors", desc := "Enduring but isolated; risk inefficiency/silos." }),
    ("SUCO_LH", { name := "Short-Lived Allies", desc := "Well-fitting but fragile; benefits may fade." }),
    ("SUCO_LL", { name := "Dead Ends", desc := "Neither durable nor integrated; drains resources." }) ]

/-- Catalog lookup, `QUADRANTS[code]`: `none` models a missing key
(which in the source would yield `undefined`). -/
def lookupQuad (code : String) : Option Quadrant :=
  (QUADRANTS.find? (fun e => e.1 == code)).map (fun e => e.2)

/-- The lookup code built in `useQuadrant`:
the template literal interpolates pair, then the Y-axis letter, then the
X-axis letter. -/
def quadCode (p : PairKey) (yHigh xHigh : Bool) : String :=
  pairCode p ++ "_" ++ (if yHigh then "H" else "L") ++ (if xHigh then "H" else "L")

/-- The fixed result returned when both ratings are exactly 3. -/
def uncertainQuadrant : Quadrant :=
  { name := "Uncertain",
    desc := "Evidence is inconclusive at present. Pilot or collect more data before committing; clarify success criteria, map curriculum links, and test in 1–2 classes." }

/-- `useQuadrant` from the boundary-aware revision: the special middle case
(exactly 3 and 3) returns the Uncertain result before any threshold
comparison; otherwise xHigh = xVal >= 4, yHigh = yVal >= 4 and the catalog
is resolved at the (pair, yHigh, xHigh) code. -/
def useQuadrant (pair : PairKey) (xVal yVal : Nat) : Option Quadrant :=
  if xVal = 3 ∧ yVal = 3 then
    some uncertainQuadrant
  else
    let xHigh := decide (4 ≤ xVal)
    let yHigh := decide (4 ≤ yVal)
    lookupQuad (quadCode pair yHigh xHigh)

/-- The legacy `useQuadrant` (src/src/App.tsx): threshold 3, no special
middle case. -/
def useQuadrantLegacy (pair : PairKey) (xVal yVal : Nat) : Option Quadrant :=
  lookupQuad (quadCode pair (decide (3 ≤ yVal)) (decide (3 ≤ xVal)))

/-- The four lookup codes belonging to one pair. -/
def pairCodes (p : PairKey) : List String :=
  [quadCode p true true, quadCode p true false, quadCode p false true, quadCode p false false]

/-- The catalog entries belonging to one pair. -/
def pairCatalog (p : PairKey) : List Quadrant :=
  (QUADRANTS.filter (fun e => (pairCodes p).contains e.1)).map (fun e => e.2)

example : useQuadrant .RAID 5 5 = some { name := "Sweet Spot", desc := "Strategic choice: valuable locally and backed by curriculum/system." } := by decide
example : useQuadrant .RAID 3 3 = some uncertainQuadrant := by decide
example : useQuadrant .SUCO 3 4 = lookupQuad "SUCO_HL" := by decide
example : (pairCatalog .EFIM).length = 4 := by decide

/-- One entry of the Coaching Catalog: the three boundary-condition
advisories of a pair. -/
structure EdgeCoach where
  y3_x4plus : String
  y4plus_x3 : String
  y3_x3 : String
  deriving DecidableEq, Repr

/-- The Coaching Catalog MID_EDGE_COACH. In the source it is a record keyed
by pair code; every PairKey has an entry, so the dynamic `if (!coach)`
guard of getEdgeCoach never fires. -/
def MID_EDGE_COACH : PairKey → EdgeCoach
  | .RAID =>
    { y3_x4plus := "Good on paper; strengthen classroom fit with quick adaptations, exemplars, and teacher feedback loops.",
      y4plus_x3 := "Strong local fit; close the gaps—map outcomes explicitly, add scope & sequence links.",
      y3_x3 := "Promising but under-specified—pilot, capture evidence, and co-design a minimal adaptation guide." }
  | .EFIM =>
    { y3_x4plus := "Catalytic but unreliable; standardise the core routine and monitor fidelity to stabilise outcomes.",
      y4plus_x3 := "Targets met, but little culture shift; widen adoption, share wins, and integrate into whole-school routines.",
      y3_x3 := "Try a contained pilot with clear measures and coaching; keep/dump based on evidence at term review." }
  | .SUCO =>
    { y3_x4plus := "Well-fitting but effortful; embed into timetable, roles, and budget to de-fragilise.",
      y4plus_x3 := "Durable but siloed; align language, timelines, and data cycles to reduce friction.",
      y3_x3 := "Rationalise overlaps, name owners, and set a ‘sunset unless embedded’ checkpoint." }

/-- `getEdgeCoach`: the rules are tried in source order, first match wins,
with hi n meaning n >= threshold; no match yields null (`none`). -/
def getEdgeCoach (pairKey : PairKey) (x y threshold : Nat) : Option String :=
  let coach := MID_EDGE_COACH pairKey
  if y = 3 ∧ threshold ≤ x then some coach.y3_x4plus
  else if threshold ≤ y ∧ x = 3 then some coach.y4plus_x3
  else if y = 3 ∧ x = 3 then some coach.y3_x3
  else none

/-- The advisory text the App renders: `getEdgeCoach(...) ?? quad.desc`,
the coaching override when present, else the QuadrantResult description. -/
def displayedAdvisory (pairKey : PairKey) (x y : Nat) : Option String :=
  match getEdgeCoach pairKey x y 4 with
  | some c => some c
  | none => (useQuadrant pairKey x y).map (fun q => q.desc)

example : getEdgeCoach .RAID 3 5 4 = some (MID_EDGE_COACH .RAID).y4plus_x3 := by decide
example : getEdgeCoach .RAID 4 4 4 = none := by decide
example : displayedAdvisory .RAID 4 4 = some "Strategic choice: valuable locally and backed by curriculum/system." := by decide

/-- The evidence-gate flag computed inside Grid:
`gateActive = x === 3 || y === 3`. -/
def gateActive (x y : Nat) : Bool :=
  x == 3 || y == 3

/-- The Grid plot-coordinate mapper toPos, over exact rationals:
cx = padding + ((sx - 1) / 4) * plotW and
cy = padding + (1 - (sy - 1) / 4) * plotH. -/
def toPos (sx sy plotW plotH padding : ℚ) : ℚ × ℚ :=
  (padding + ((sx - 1) / 4) * plotW, padding + (1 - (sy - 1) / 4) * plotH)

/-- The position of the emphasized current (live) point in Grid:
`toPos(x, y)`. -/
def livePointPos (x y plotW plotH padding : ℚ) : ℚ × ℚ :=
  toPos x y plotW plotH padding

/-- The position of a saved resource point in Grid: `toPos(p.x, p.y)`. -/
def savedPointPos (px py plotW plotH padding : ℚ) : ℚ × ℚ :=
  toPos px py plotW plotH padding

/-- The inline coordinate computation of the legacy Grid
(src/src/App.tsx lines 142-143): the same two formulas, written out. -/
def gridPosLegacy (x y plotW plotH padding : ℚ) : ℚ × ℚ :=
  (padding + ((x - 1) / 4) * plotW, padding + (1 - (y - 1) / 4) * plotH)

/-- The live ratings record: a complete mapping from the six criteria to a
rating, as held in the scores state. -/
structure Scores where
  relevance : Nat
  alignment : Nat
  effectiveness : Nat
  impact : Nat
  sustainability : Nat
  coherence : Nat
  deriving DecidableEq, Repr

/-- Read one criterion of a scores record (`scores[label]`). -/
def Scores.get (s : Scores) : Criterion → Nat
  | .Relevance => s.relevance
  | .Alignment => s.alignment
  | .Effectiveness => s.effectiveness
  | .Impact => s.impact
  | .Sustainability => s.sustainability
  | .Coherence => s.coherence

/-- Update one criterion, leaving the rest unchanged; this is the spread
update `{ ...s, [label]: n }` done by the slider callbacks. -/
def Scores.set (s : Scores) : Criterion → Nat → Scores
  | .Relevance, n => { s with relevance := n }
  | .Alignment, n => { s with alignment := n }
  | .Effectiveness, n => { s with effectiveness := n }
  | .Impact, n => { s with impact := n }
  | .Sustainability, n => { s with sustainability := n }
  | .Coherence, n => { s with coherence := n }

/-- The initial scores state: every criterion defaults to 3. -/
def initialScores : Scores :=
  { relevance := 3, alignment := 3, effectiveness := 3, impact := 3,
    sustainability := 3, coherence := 3 }

/-- One axis-pair configuration from the PAIRS table: key, title and the
criteria plotted on the x and y axes. -/
structure PairCfg where
  key : PairKey
  title : String
  x : Criterion
  y : Criterion
  deriving DecidableEq, Repr

/-- The PAIRS config table. -/
def PAIRS : List PairCfg :=
  [ { key := .RAID, title := "Relevance vs Alignment", x := .Alignment, y := .Relevance },
    { key := .EFIM, title := "Effectiveness vs Impact", x := .Impact, y := .Effectiveness },
    { key := .SUCO, title := "Sustainability vs Coherence", x := .Coherence, y := .Sustainability } ]

/-- The per-pair evidence-gate flag computed in App:
`scores[p.x] === 3 || scores[p.y] === 3`. -/
def appGateActive (s : Scores) (p : PairCfg) : Bool :=
  s.get p.x == 3 || s.get p.y == 3

/-- A saved resource snapshot: stable id, display name, and the complete
six-criterion scores mapping. -/
structure SavedResource where
  id : String
  name : String
  scores : Scores
  deriving DecidableEq, Repr

/-- The persisted localStorage slot under the key "resourcesV1".
The browser stores a string; here a stored string on which JSON.parse
throws is `corrupt` (with the raw text), a stored string that parses to a
serialized resource array is `wellFormed` with the decoded list, and a
missing key is `absent`. Only `saveAll` ever writes the slot, and it
always writes `JSON.stringify` of a resource list, so every blob the
program itself persists is `wellFormed`. -/
inductive Stored where
  | absent
  | corrupt (raw : String)
  | wellFormed (rs : List SavedResource)
  deriving DecidableEq, Repr

/-- The resources initializer, i.e. load:
`JSON.parse(localStorage.getItem("resourcesV1") || "[]")` inside
try/catch. A missing key falls back to the literal "[]" (the empty list);
a parse failure is caught and yields the empty list; a well-formed blob
yields the stored list. It is a total function: no case raises. -/
def loadResources : Stored → List SavedResource
  | .absent => []
  | .corrupt _ => []
  | .wellFormed rs => rs

/-- The view-model state owned by App: live scores, the in-memory saved
list, the pending name text, and the persisted slot. -/
structure AppState where
  scores : Scores
  resources : List SavedResource
  resourceName : String
  stored : Stored
  deriving DecidableEq, Repr

/-- `saveAll(next)`: set the in-memory list and persist the full updated
list as one whole-list overwrite of the blob. -/
def saveAll (st : AppState) (next : List SavedResource) : AppState :=
  { st with resources := next, stored := Stored.wellFormed next }

/-- Drop leading and trailing whitespace from a character list. -/
def trimChars (l : List Char) : List Char :=
  ((l.dropWhile Char.isWhitespace).reverse.dropWhile Char.isWhitespace).reverse

/-- Model of the JavaScript String.prototype.trim platform function:
remove whitespace from both ends of the string. -/
def jsTrim (s : String) : String :=
  String.mk (trimChars s.data)

/-- The name chosen at save time: `resourceName.trim() || default`, the
trimmed pending name, or the generated default name built from the count
plus one when trimming leaves it blank (the empty string is falsy). -/
def chosenName (st : AppState) : String :=
  if jsTrim st.resourceName = "" then "Resource " ++ toString (st.resources.length + 1)
  else jsTrim st.resourceName

/-- `saveCurrentResource`: snapshot the current scores under a fresh
identifier (`crypto.randomUUID() || String(Date.now())`, modelled as the
argument freshId), append to the list, persist via saveAll, and clear the
pending name. -/
def saveCurrentResource (st : AppState) (freshId : String) : AppState :=
  let r : SavedResource := { id := freshId, name := chosenName st, scores := st.scores }
  let next := st.resources ++ [r]
  { saveAll st next with resourceName := "" }

/-- `deleteResource(id)`: keep exactly the entries whose id differs
(`resources.filter(r => r.id !== id)`) and persist via saveAll. -/
def deleteResource (st : AppState) (id : String) : AppState :=
  saveAll st (st.resources.filter (fun r => r.id != id))

/-- One slider edit: `setScores((s) => ({ ...s, [label]: n }))`. -/
def setScore (st : AppState) (c : Criterion) (n : Nat) : AppState :=
  { st with scores := st.scores.set c n }

/-- A sequence of slider edits applied in order. -/
def applyEdits (st : AppState) (edits : List (Criterion × Nat)) : AppState :=
  edits.foldl (fun s e => setScore s e.1 e.2) st

/-- A sample empty app state whose pending name is pure whitespace. -/
def exState : AppState :=
  { scores := initialScores, resources := [], resourceName := " ",
    stored := Stored.wellFormed [] }

/-- A sample saved resource. -/
def exResource : SavedResource :=
  { id := "a1", name := "Pilot", scores := initialScores }

/-- A sample app state holding one saved resource. -/
def exState2 : AppState :=
  { scores := initialScores, resources := [exResource], resourceName := "",
    stored := Stored.wellFormed [exResource] }

/-- C1: for every pair code and all ratings x, y in [1,5], useQuadrant
returns the fixed Uncertain result (equivalently, a result named
"Uncertain") if and only if x = 3 and y = 3. The (3,3) test is the first
branch of the source function, before any threshold comparison, so no
catalog branch is consulted when it fires; conversely no catalog entry is
named "Uncertain", which the right-to-left directions capture. -/
theorem classify_uncertain_iff :
    ∀ p : PairKey, ∀ x : Nat, x ∈ Finset.Icc 1 5 → ∀ y : Nat, y ∈ Finset.Icc 1 5 →
      ((useQuadrant p x y = some uncertainQuadrant ↔ (x = 3 ∧ y = 3))
        ∧ ((useQuadrant p x y).map (fun q => q.name) = some "Uncertain" ↔ (x = 3 ∧ y = 3))) := by
  decide

/-- Witness for C1 at pair RAID and ratings (3,3). -/
theorem classify_uncertain_iff_witness :
    (3 : Nat) ∈ Finset.Icc 1 5 ∧
      ((useQuadrant PairKey.RAID 3 3 = some uncertainQuadrant ↔ ((3 : Nat) = 3 ∧ (3 : Nat) = 3))
        ∧ ((useQuadrant PairKey.RAID 3 3).map (fun q => q.name) = some "Uncertain"
            ↔ ((3 : Nat) = 3 ∧ (3 : Nat) = 3))) :=
  ⟨by decide, classify_uncertain_iff PairKey.RAID 3 (by decide) 3 (by decide)⟩

/-- C2: the Quadrant Catalog resolves every one of the 12 (pair, yHigh,
xHigh) lookup codes, each pair owns exactly 4 catalog entries, and for all
ratings in [1,5] not both 3, useQuadrant equals the catalog lookup at the
code built from the pair and the booleans yHigh = y >= 4 (first letter)
and xHigh = x >= 4 (second letter) — so the result is determined solely by
those two booleans — and that result is one of the 4 entries of the pair. -/
theorem classify_catalog_lookup :
    (∀ p : PairKey, ∀ yHigh xHigh : Bool, (lookupQuad (quadCode p yHigh xHigh)).isSome = true)
    ∧ (∀ p : PairKey, (pairCatalog p).length = 4)
    ∧ (∀ p : PairKey, ∀ x : Nat, x ∈ Finset.Icc 1 5 → ∀ y : Nat, y ∈ Finset.Icc 1 5 →
        ¬(x = 3 ∧ y = 3) →
          useQuadrant p x y = lookupQuad (quadCode p (decide (4 ≤ y)) (decide (4 ≤ x)))
          ∧ ∃ q ∈ pairCatalog p, useQuadrant p x y = some q) := by
  decide

/-- Witness for C2 at pair RAID and ratings (5,5). -/
theorem classify_catalog_lookup_witness :
    (5 : Nat) ∈ Finset.Icc 1 5 ∧ ¬((5 : Nat) = 3 ∧ (5 : Nat) = 3) ∧
      (useQuadrant PairKey.RAID 5 5
          = lookupQuad (quadCode PairKey.RAID (decide (4 ≤ (5 : Nat))) (decide (4 ≤ (5 : Nat))))
        ∧ ∃ q ∈ pairCatalog PairKey.RAID, useQuadrant PairKey.RAID 5 5 = some q) :=
  ⟨by decide, by decide,
    classify_catalog_lookup.2.2 PairKey.RAID 5 (by decide) 5 (by decide) (by decide)⟩

/-- C3: with threshold 4, getEdgeCoach returns the y-moderate/x-high
advisory of the pair exactly when y = 3 and x >= 4, the y-high/x-moderate
advisory exactly when y >= 4 and x = 3, the both-moderate advisory exactly
when y = 3 and x = 3, and null exactly when no rule matches (at threshold
4 the three rules are pairwise disjoint, so first-match order picks the
unique matching rule); when it returns null, the rendered advisory falls
back to the QuadrantResult description via the ?? operator. -/
theorem edgeCoaching_rules :
    ∀ p : PairKey, ∀ x : Nat, x ∈ Finset.Icc 1 5 → ∀ y : Nat, y ∈ Finset.Icc 1 5 →
      ((getEdgeCoach p x y 4 = some (MID_EDGE_COACH p).y3_x4plus ↔ (y = 3 ∧ 4 ≤ x))
        ∧ (getEdgeCoach p x y 4 = some (MID_EDGE_COACH p).y4plus_x3 ↔ (4 ≤ y ∧ x = 3))
        ∧ (getEdgeCoach p x y 4 = some (MID_EDGE_COACH p).y3_x3 ↔ (y = 3 ∧ x = 3))
        ∧ (getEdgeCoach p x y 4 = none
            ↔ ¬((y = 3 ∧ 4 ≤ x) ∨ (4 ≤ y ∧ x = 3) ∨ (y = 3 ∧ x = 3)))
        ∧ (getEdgeCoach p x y 4 = none
            → displayedAdvisory p x y = (useQuadrant p x y).map (fun q => q.desc))) := by
  decide

/-- Witness for C3 at pair RAID and ratings (4,3). -/
theorem edgeCoaching_rules_witness :
    (4 : Nat) ∈ Finset.Icc 1 5 ∧
      ((getEdgeCoach PairKey.RAID 4 3 4 = some (MID_EDGE_COACH PairKey.RAID).y3_x4plus
          ↔ ((3 : Nat) = 3 ∧ 4 ≤ (4 : Nat)))
        ∧ (getEdgeCoach PairKey.RAID 4 3 4 = some (MID_EDGE_COACH PairKey.RAID).y4plus_x3
            ↔ (4 ≤ (3 : Nat) ∧ (4 : Nat) = 3))
        ∧ (getEdgeCoach PairKey.RAID 4 3 4 = some (MID_EDGE_COACH PairKey.RAID).y3_x3
            ↔ ((3 : Nat) = 3 ∧ (4 : Nat) = 3))
        ∧ (getEdgeCoach PairKey.RAID 4 3 4 = none
            ↔ ¬(((3 : Nat) = 3 ∧ 4 ≤ (4 : Nat)) ∨ (4 ≤ (3 : Nat) ∧ (4 : Nat) = 3)
                ∨ ((3 : Nat) = 3 ∧ (4 : Nat) = 3)))
        ∧ (getEdgeCoach PairKey.RAID 4 3 4 = none
            → displayedAdvisory PairKey.RAID 4 3
                = (useQuadrant PairKey.RAID 4 3).map (fun q => q.desc))) :=
  ⟨by decide, edgeCoaching_rules PairKey.RAID 4 (by decide) 3 (by decide)⟩

/-- C4: round-trip — from any app state, saving the current scores under a
fresh id and then loading from the persisted blob (as a process restart
re-reads it) yields a collection containing the saved entry, with the
identical chosen name and the identical six-criterion scores snapshot. -/
theorem save_load_roundtrip :
    ∀ (st : AppState) (freshId : String),
      ∃ r ∈ loadResources (saveCurrentResource st freshId).stored,
        r.id = freshId ∧ r.name = chosenName st ∧ r.scores = st.scores := by
  intro st freshId
  refine ⟨{ id := freshId, name := chosenName st, scores := st.scores }, ?_, rfl, rfl, rfl⟩
  simp [saveCurrentResource, saveAll, loadResources]

/-- C5: load returns the empty collection on a missing blob and on every
corrupt (unparseable) blob, and is a total function, so it never raises;
on every well-formed blob — in particular any blob persisted by saveAll —
it returns exactly the previously stored list. -/
theorem load_total_recovery :
    loadResources Stored.absent = []
    ∧ (∀ raw : String, loadResources (Stored.corrupt raw) = [])
    ∧ (∀ rs : List SavedResource, loadResources (Stored.wellFormed rs) = rs)
    ∧ (∀ (st : AppState) (next : List SavedResource),
        loadResources (saveAll st next).stored = next) :=
  ⟨rfl, fun _ => rfl, fun _ => rfl, fun _ _ => rfl⟩

/-- C6: saveCurrentResource appends exactly one new entry at the end of
the list, carrying the freshly generated identifier and the snapshot of
the current scores; the entry is named by the trimmed pending name, or by
the default built from count+1 when the trimmed name is blank; and the
full updated list is persisted as one whole-list overwrite. -/
theorem save_appends_and_persists :
    ∀ (st : AppState) (freshId : String),
      (saveCurrentResource st freshId).resources
          = st.resources ++ [{ id := freshId, name := chosenName st, scores := st.scores }]
      ∧ (saveCurrentResource st freshId).stored
          = Stored.wellFormed ((saveCurrentResource st freshId).resources)
      ∧ (jsTrim st.resourceName = ""
          → chosenName st = "Resource " ++ toString (st.resources.length + 1))
      ∧ (jsTrim st.resourceName ≠ "" → chosenName st = jsTrim st.resourceName) := by
  intro st freshId
  refine ⟨rfl, rfl, ?_, ?_⟩ <;> intro h <;> simp [chosenName, h]

/-- Witness for C6 at a state whose pending name is pure whitespace. -/
theorem save_appends_and_persists_witness :
    jsTrim exState.resourceName = ""
    ∧ chosenName exState = "Resource " ++ toString (exState.resources.length + 1) :=
  ⟨by decide, (save_appends_and_persists exState "id1").2.2.1 (by decide)⟩

/-- C7: deleteResource keeps exactly the entries whose id differs from the
requested id (membership in the result is equivalent to prior membership
with a different id) and persists the updated list; when no entry carries
the id, the collection is left unchanged — a silent no-op, not an error. -/
theorem delete_filters_and_persists :
    ∀ (st : AppState) (id : String),
      (deleteResource st id).resources = st.resources.filter (fun r => r.id != id)
      ∧ (deleteResource st id).stored
          = Stored.wellFormed ((deleteResource st id).resources)
      ∧ (∀ r : SavedResource,
          r ∈ (deleteResource st id).resources ↔ (r ∈ st.resources ∧ r.id ≠ id))
      ∧ ((∀ r ∈ st.resources, r.id ≠ id) → (deleteResource st id).resources = st.resources) := by
  intro st id
  refine ⟨rfl, rfl, ?_, ?_⟩
  · intro r
    simp [deleteResource, saveAll, List.mem_filter]
  · intro h
    simp only [deleteResource, saveAll]
    exact List.filter_eq_self.mpr (fun r hr => by simpa using h r hr)

/-- Witness for C7: deleting an id absent from a one-entry collection
leaves it unchanged. -/
theorem delete_filters_and_persists_witness :
    (∀ r ∈ exState2.resources, r.id ≠ "zzz")
    ∧ (deleteResource exState2 "zzz").resources = exState2.resources :=
  ⟨by decide, (delete_filters_and_persists exState2 "zzz").2.2.2 (by decide)⟩

/-- Resource list preserved by any sequence of slider edits. -/
theorem applyEdits_resources (st : AppState) (edits : List (Criterion × Nat)) :
    (applyEdits st edits).resources = st.resources := by
  induction edits generalizing st with
  | nil => rfl
  | cons e rest ih => simpa [applyEdits, setScore] using ih (setScore st e.1 e.2)

/-- C8: a saved entry is immutable once saved — after saving, any sequence
of live-rating edits via setScores leaves the saved list untouched, and
the entry appended by the save still carries the scores snapshot taken at
save time (the spread copy), not the edited live scores. -/
theorem saved_resource_immutable :
    ∀ (st : AppState) (freshId : String) (edits : List (Criterion × Nat)),
      (applyEdits (saveCurrentResource st freshId) edits).resources
          = (saveCurrentResource st freshId).resources
      ∧ ∃ r ∈ (applyEdits (saveCurrentResource st freshId) edits).resources,
          r.id = freshId ∧ r.name = chosenName st ∧ r.scores = st.scores := by
  intro st freshId edits
  refine ⟨applyEdits_resources _ _, ?_⟩
  refine ⟨{ id := freshId, name := chosenName st, scores := st.scores }, ?_, rfl, rfl, rfl⟩
  rw [applyEdits_resources]
  simp [saveCurrentResource, saveAll]

/-- C9: the plot mapper computes exactly the two specified affine
formulas; rating pair (1,1) lands on the bottom-left corner of the plot
area (x at the left padding edge, y at padding + plotHeight, the bottom
edge inside the padding) and (5,5) on the top-right corner; and the one
function toPos backs the live point, every saved point, and agrees with
the inline formulas of the legacy Grid. -/
theorem toPos_corners_shared :
    ∀ plotW plotH padding : ℚ,
      (∀ x y : ℚ, toPos x y plotW plotH padding
          = (padding + ((x - 1) / 4) * plotW, padding + (1 - (y - 1) / 4) * plotH))
      ∧ toPos 1 1 plotW plotH padding = (padding, padding + plotH)
      ∧ toPos 5 5 plotW plotH padding = (padding + plotW, padding)
      ∧ (∀ x y : ℚ, livePointPos x y plotW plotH padding = toPos x y plotW plotH padding)
      ∧ (∀ px py : ℚ, savedPointPos px py plotW plotH padding = toPos px py plotW plotH padding)
      ∧ (∀ x y : ℚ, gridPosLegacy x y plotW plotH padding = toPos x y plotW plotH padding) := by
  intro plotW plotH padding
  refine ⟨fun x y => rfl, ?_, ?_, fun x y => rfl, fun px py => rfl, fun x y => rfl⟩
  · norm_num [toPos, Prod.ext_iff]
  · norm_num [toPos, Prod.ext_iff]

/-- C10: the Evidence Gate flag is a pure function of the two current
ratings — it holds exactly when x = 3 or y = 3 (no other state feeds it,
so it is recomputed from the ratings on every read) — and the per-pair
flag computed in App is the same computation applied to the scores of the
pair, i.e. the Grid and App sites agree. -/
theorem gate_active_iff :
    (∀ x y : Nat, gateActive x y = true ↔ (x = 3 ∨ y = 3))
    ∧ (∀ (s : Scores) (p : PairCfg), appGateActive s p = gateActive (s.get p.x) (s.get p.y)) :=
  ⟨fun x y => by simp [gateActive], fun s p => rfl⟩

end Johari
